import Mathlib

/-!
Verification of the viewport-driven fetch-coordination and enrichment
pipeline of the rare-birds map client.

The definitions below are shallow embeddings of the functions in
src/client/src/components/BirdMap.jsx (the parameterized variant with the
3 km fetch gate) and of the near-identical variant in src/unnamed/part_000.
Coordinates fed to the trigonometric distance computation are modelled as
real numbers; coordinates of observation records, which the code only
compares for exact equality when grouping, are modelled as rationals so
that grouping stays executable.  Observation timestamps are modelled as
naturals ordered by recency (larger = more recent); the code treats them
as opaque values, copying and comparing nothing about them.
-/

namespace RareBirds

/-- Two-argument arctangent with the quadrant conventions of the
host language's atan2 function (signed zeros aside), used by
calculateDistance. -/
noncomputable def atan2 (y x : ℝ) : ℝ :=
  if 0 < x then Real.arctan (y / x)
  else if x < 0 then
    (if 0 ≤ y then Real.arctan (y / x) + Real.pi else Real.arctan (y / x) - Real.pi)
  else
    (if 0 < y then Real.pi / 2 else if y < 0 then -(Real.pi / 2) else 0)

/-- The intermediate value a of calculateDistance (BirdMap.jsx lines
252-255): the haversine of the latitude delta plus the product of the
cosines with the haversine of the longitude delta, with dLat and dLon
the deltas converted to radians and the source's left-to-right
association of the products kept. -/
noncomputable def haversineA (lat1 lon1 lat2 lon2 : ℝ) : ℝ :=
  Real.sin ((lat2 - lat1) * Real.pi / 180 / 2) * Real.sin ((lat2 - lat1) * Real.pi / 180 / 2) +
    Real.cos (lat1 * Real.pi / 180) * Real.cos (lat2 * Real.pi / 180) *
      Real.sin ((lon2 - lon1) * Real.pi / 180 / 2) * Real.sin ((lon2 - lon1) * Real.pi / 180 / 2)

/-- Haversine great-circle distance in kilometres, embedding
calculateDistance from BirdMap.jsx lines 248-258 (identical in
part_000 lines 202-212): Earth radius R = 6371 km, degree inputs
converted to radians, c = 2 * atan2(sqrt a, sqrt(1 - a)), result R * c. -/
noncomputable def calculateDistance (lat1 lon1 lat2 lon2 : ℝ) : ℝ :=
  6371 * (2 * atan2 (Real.sqrt (haversineA lat1 lon1 lat2 lon2))
    (Real.sqrt (1 - haversineA lat1 lon1 lat2 lon2)))

/-- A map-center coordinate as handed to the gate and the distance
computation. -/
structure Coord where
  lat : ℝ
  lng : ℝ

/-- Query parameters of a fetch: the time-window day count (daysBack)
and the sighting classification (sightingType), both held as strings by
the component state. -/
structure QueryParams where
  daysBack : String
  sightingType : String
deriving DecidableEq

/-- The last successfully queried center and the parameters used for
that fetch.  BirdMap.jsx keeps these in two state variables
(lastFetchLocation, lastFetchParams) that start null together and are
always assigned together after a successful fetch, so they are modelled
as one optional record. -/
structure FetchState where
  loc : Coord
  params : QueryParams

/-- The params-changed test of fetchBirdData (BirdMap.jsx lines
420-422) restricted to a present previous FetchState: either the day
count or the classification differs. -/
def paramsDiffer (prev cur : QueryParams) : Bool :=
  prev.daysBack != cur.daysBack || prev.sightingType != cur.sightingType

/-- The fetch gate of fetchBirdData (BirdMap.jsx lines 417-436): with no
previous FetchState the params-changed test succeeds vacuously and the
fetch proceeds; with unchanged params and a previous location the fetch
is skipped exactly when the center moved less than 3 km. -/
noncomputable def shouldFetch (prev : Option FetchState) (center : Coord)
    (params : QueryParams) : Prop :=
  match prev with
  | none => True
  | some st =>
    if paramsDiffer st.params params then True
    else ¬ (calculateDistance st.loc.lat st.loc.lng center.lat center.lng < 3)

/-- The viewport radius computation of fetchBirdData (BirdMap.jsx lines
443-456): default 25 km without bounds; otherwise half the larger of
the east-west and north-south extents, capped at 25 km.  The argument
carries the north-east and south-west corners when bounds exist. -/
noncomputable def computeRadius (bounds : Option (Coord × Coord)) : ℝ :=
  match bounds with
  | none => 25
  | some (ne, sw) =>
    let xDistance := calculateDistance ne.lat ne.lng ne.lat sw.lng
    let yDistance := calculateDistance ne.lat ne.lng sw.lat ne.lng
    min (max xDistance yDistance / 2) 25

lemma sin_swap (p q : ℝ) :
    Real.sin ((p - q) * Real.pi / 180 / 2) = -Real.sin ((q - p) * Real.pi / 180 / 2) := by
  have h : (p - q) * Real.pi / 180 / 2 = -((q - p) * Real.pi / 180 / 2) := by ring
  rw [h, Real.sin_neg]

lemma haversineA_symm (lat1 lon1 lat2 lon2 : ℝ) :
    haversineA lat2 lon2 lat1 lon1 = haversineA lat1 lon1 lat2 lon2 := by
  unfold haversineA
  rw [sin_swap lat1 lat2, sin_swap lon1 lon2]
  ring

lemma haversineA_self (lat lon : ℝ) : haversineA lat lon lat lon = 0 := by
  unfold haversineA
  simp

lemma atan2_zero_one : atan2 0 1 = 0 := by
  unfold atan2
  rw [if_pos one_pos]
  simp

/-- C8: calculateDistance is symmetric in its two points, and is zero on
identical points. -/
theorem calculateDistance_symm_and_self (lat1 lon1 lat2 lon2 : ℝ) :
    calculateDistance lat1 lon1 lat2 lon2 = calculateDistance lat2 lon2 lat1 lon1 ∧
      calculateDistance lat1 lon1 lat1 lon1 = 0 := by
  constructor
  · unfold calculateDistance
    rw [haversineA_symm]
  · unfold calculateDistance
    rw [haversineA_self]
    rw [Real.sqrt_zero, sub_zero, Real.sqrt_one, atan2_zero_one]
    ring

/-- C3: with viewport bounds the query radius is min(max(eastWest,
northSouth) / 2, 25) where eastWest is the distance from NE to the
point (NE.lat, SW.lng) and northSouth the distance from NE to
(SW.lat, NE.lng); the radius never exceeds 25 km; without bounds the
radius is the fixed default 25 km. -/
theorem computeRadius_spec (ne sw : Coord) :
    computeRadius (some (ne, sw)) =
      min (max (calculateDistance ne.lat ne.lng ne.lat sw.lng)
        (calculateDistance ne.lat ne.lng sw.lat ne.lng) / 2) 25 ∧
      (∀ bounds : Option (Coord × Coord), computeRadius bounds ≤ 25) ∧
      computeRadius none = 25 := by
  refine ⟨rfl, ?_, rfl⟩
  intro bounds
  match bounds with
  | none => exact le_refl 25
  | some (a, b) => exact min_le_right _ _

/-- C1: the fetch gate approves when there is no previous FetchState;
it approves unconditionally when the day count or the classification
differs from the previous fetch's params; with unchanged params it
approves exactly when the center moved at least 3 km from the previous
fetch's center. -/
theorem shouldFetch_spec (st : FetchState) (center : Coord) (params : QueryParams) :
    shouldFetch none center params ∧
      (st.params.daysBack ≠ params.daysBack ∨ st.params.sightingType ≠ params.sightingType →
        shouldFetch (some st) center params) ∧
      (st.params.daysBack = params.daysBack ∧ st.params.sightingType = params.sightingType →
        (shouldFetch (some st) center params ↔
          3 ≤ calculateDistance st.loc.lat st.loc.lng center.lat center.lng)) := by
  refine ⟨trivial, ?_, ?_⟩
  · intro h
    have hd : paramsDiffer st.params params = true := by
      unfold paramsDiffer
      rcases h with h | h
      · simp [bne_iff_ne, h]
      · simp [bne_iff_ne, h]
    simp only [shouldFetch, hd, if_true]
  · intro h
    have hd : paramsDiffer st.params params = false := by
      unfold paramsDiffer
      simp [bne_iff_ne, h.1, h.2]
    simp only [shouldFetch, hd, Bool.false_eq_true, if_false]
    exact not_lt

/-- Witness for shouldFetch_spec: a previous fetch at params
back 7 / recent and current params back 7 / rare approves the fetch
regardless of position. -/
theorem shouldFetch_spec_witness :
    shouldFetch (some ⟨⟨0, 0⟩, ⟨"7", "recent"⟩⟩) ⟨0, 0⟩ ⟨"7", "rare"⟩ :=
  (shouldFetch_spec ⟨⟨0, 0⟩, ⟨"7", "recent"⟩⟩ ⟨0, 0⟩ ⟨"7", "rare"⟩).2.1
    (Or.inr (by decide))

/-- One photo entry of the enrichment lookup response: the full-size
and thumbnail image URLs returned per species key. -/
structure PhotoData where
  imageUrl : String
  thumbnailUrl : String
deriving DecidableEq

/-- A raw observation record as received from the observation query.
Coordinates are rationals (the code only compares them for exact
equality when grouping); the timestamp is a natural ordered by recency
(the code copies it opaquely). -/
structure Observation where
  sciName : String
  comName : String
  speciesCode : String
  lat : ℚ
  lng : ℚ
  obsDt : ℕ
  obsValid : Bool
  subId : String
deriving DecidableEq

/-- A processed per-species record (the baseData object of BirdMap.jsx
lines 511-524): the spread of the first record of the species group,
with the subIds list of every submission id of the group, and photo
fields present exactly when the lookup response held the species key. -/
structure BirdRecord where
  sciName : String
  comName : String
  speciesCode : String
  lat : ℚ
  lng : ℚ
  obsDt : ℕ
  obsValid : Bool
  subId : String
  subIds : List String
  thumbnailUrl : Option String
  fullPhotoUrl : Option String
deriving DecidableEq

/-- One published location cluster: the parsed location key and the
per-species records at that exact coordinate. -/
structure LocationCluster where
  lat : ℚ
  lng : ℚ
  birds : List BirdRecord
deriving DecidableEq

/-- Inserting a grouping key the way a JS object acquires properties:
a fresh key is appended, an existing key left in place. -/
def insertKey {κ : Type} [DecidableEq κ] (k : κ) (ks : List κ) : List κ :=
  if k ∈ ks then ks else ks ++ [k]

/-- The keys of a lodash groupBy result in first-occurrence order,
which is the property order a JS object gives Object.entries. -/
def keyList {α κ : Type} [DecidableEq κ] (key : α → κ) (xs : List α) : List κ :=
  xs.foldl (fun ks x => insertKey (key x) ks) []

/-- Embedding of lodash groupBy followed by Object.entries: one entry
per key in first-occurrence order, with the group holding every element
of that key in source order. -/
def groupByKey {α κ : Type} [DecidableEq κ] (key : α → κ) (xs : List α) :
    List (κ × List α) :=
  (keyList key xs).map (fun k => (k, xs.filter (fun x => decide (key x = k))))

/-- The speciesPhotos lookup that results from any absorbed photo
failure: the initial empty object, holding no species key. -/
def noPhotos : String → Option PhotoData := fun _ => none

/-- The body of the species map of BirdMap.jsx lines 510-524: spread
the first record of the group, attach the subId of every record of the
group in source order, and attach both photo URLs exactly when the
species key is present in the lookup map.  A group produced by
groupByKey is never empty, so the none case is unreachable. -/
def processSpecies (photos : String → Option PhotoData) :
    List Observation → Option BirdRecord
  | [] => none
  | o :: rest =>
    some
      { sciName := o.sciName
        comName := o.comName
        speciesCode := o.speciesCode
        lat := o.lat
        lng := o.lng
        obsDt := o.obsDt
        obsValid := o.obsValid
        subId := o.subId
        subIds := (o :: rest).map (fun s => s.subId)
        thumbnailUrl := (photos (o.sciName ++ "_" ++ o.comName)).map (fun p => p.thumbnailUrl)
        fullPhotoUrl := (photos (o.sciName ++ "_" ++ o.comName)).map (fun p => p.imageUrl) }

/-- The body of the location map of BirdMap.jsx lines 506-531: parse
the location key back into coordinates and build one record per common
name in the group. -/
def processLocation (photos : String → Option PhotoData) (k : ℚ × ℚ)
    (g : List Observation) : LocationCluster :=
  { lat := k.1
    lng := k.2
    birds := (groupByKey (fun o => o.comName) g).filterMap
      (fun kg => processSpecies photos kg.2) }

/-- The observation normalizer of fetchBirdData (BirdMap.jsx lines
473-532): keep the records whose validity flag is true, group them by
exact (lat, lng), and build the per-location clusters; the photos
argument is the speciesPhotos map in effect when records are built. -/
def normalize (photos : String → Option PhotoData) (data : List Observation) :
    List LocationCluster :=
  (groupByKey (fun s => (s.lat, s.lng)) (data.filter (fun s => s.obsValid))).map
    (fun kg => processLocation photos kg.1 kg.2)

/-- The valid observations of the input that merged into the given
record of the given cluster: same exact location as the cluster and
same common name as the record, in source order. -/
def mergedGroup (data : List Observation) (c : LocationCluster) (b : BirdRecord) :
    List Observation :=
  (data.filter (fun s => s.obsValid)).filter
    (fun o => decide (o.lat = c.lat ∧ o.lng = c.lng ∧ o.comName = b.comName))

/-- Strip the photo fields of a record, leaving everything else. -/
def stripBird (b : BirdRecord) : BirdRecord :=
  { b with thumbnailUrl := none, fullPhotoUrl := none }

/-- Strip the photo fields of every record of a cluster. -/
def stripPhotos (c : LocationCluster) : LocationCluster :=
  { c with birds := c.birds.map stripBird }

lemma mem_insertKey {κ : Type} [DecidableEq κ] {a k : κ} {ks : List κ} :
    a ∈ insertKey k ks ↔ a ∈ ks ∨ a = k := by
  unfold insertKey
  by_cases h : k ∈ ks
  · rw [if_pos h]
    constructor
    · exact Or.inl
    · rintro (h' | rfl)
      · exact h'
      · exact h
  · rw [if_neg h]
    simp [List.mem_append]

lemma mem_foldl_insertKey {α κ : Type} [DecidableEq κ] (key : α → κ)
    (xs : List α) (acc : List κ) (k : κ) :
    k ∈ xs.foldl (fun ks x => insertKey (key x) ks) acc ↔
      k ∈ acc ∨ ∃ x ∈ xs, key x = k := by
  induction xs generalizing acc with
  | nil => simp
  | cons x xs ih =>
    rw [List.foldl_cons, ih, mem_insertKey]
    simp only [List.mem_cons]
    constructor
    · rintro ((h | rfl) | h)
      · exact Or.inl h
      · exact Or.inr ⟨x, Or.inl rfl, rfl⟩
      · obtain ⟨y, hy, hk⟩ := h
        exact Or.inr ⟨y, Or.inr hy, hk⟩
    · rintro (h | ⟨y, (rfl | hy), hk⟩)
      · exact Or.inl (Or.inl h)
      · exact Or.inl (Or.inr hk.symm)
      · exact Or.inr ⟨y, hy, hk⟩

lemma mem_keyList {α κ : Type} [DecidableEq κ] {key : α → κ} {xs : List α} {k : κ} :
    k ∈ keyList key xs ↔ ∃ x ∈ xs, key x = k := by
  unfold keyList
  rw [mem_foldl_insertKey]
  simp

lemma mem_groupByKey {α κ : Type} [DecidableEq κ] {key : α → κ} {xs : List α}
    {k : κ} {g : List α} :
    (k, g) ∈ groupByKey key xs ↔
      k ∈ keyList key xs ∧ g = xs.filter (fun x => decide (key x = k)) := by
  unfold groupByKey
  rw [List.mem_map]
  constructor
  · rintro ⟨k', hk', hpair⟩
    obtain ⟨h1, h2⟩ := Prod.ext_iff.mp hpair
    simp only at h1 h2
    subst h1
    exact ⟨hk', h2.symm⟩
  · rintro ⟨hk, hg⟩
    exact ⟨k, hk, by rw [hg]⟩

lemma keyList_filter_ne_nil {α κ : Type} [DecidableEq κ] {key : α → κ}
    {xs : List α} {k : κ} (h : k ∈ keyList key xs) :
    xs.filter (fun x => decide (key x = k)) ≠ [] := by
  obtain ⟨x, hx, hk⟩ := mem_keyList.mp h
  intro hnil
  have hmem : x ∈ xs.filter (fun x => decide (key x = k)) :=
    List.mem_filter.mpr ⟨hx, by simp [hk]⟩
  rw [hnil] at hmem
  exact absurd hmem (List.not_mem_nil x)

/-- Every record of every cluster of the normalizer's output is the
processSpecies image of its merged group, which is nonempty and listed
in source order. -/
lemma normalize_birds_spec {photos : String → Option PhotoData}
    {data : List Observation} {c : LocationCluster} {b : BirdRecord}
    (hc : c ∈ normalize photos data) (hb : b ∈ c.birds) :
    ∃ o rest, mergedGroup data c b = o :: rest ∧
      processSpecies photos (o :: rest) = some b := by
  obtain ⟨⟨k, g⟩, hkg, hcc⟩ := List.mem_map.mp hc
  obtain ⟨hk, hg⟩ := mem_groupByKey.mp hkg
  have hclat : c.lat = k.1 := by rw [← hcc]; rfl
  have hclng : c.lng = k.2 := by rw [← hcc]; rfl
  have hbirds : c.birds = (groupByKey (fun o => o.comName) g).filterMap
      (fun kg => processSpecies photos kg.2) := by rw [← hcc]; rfl
  rw [hbirds] at hb
  obtain ⟨⟨n, sg⟩, hng, hps⟩ := List.mem_filterMap.mp hb
  obtain ⟨hn, hsg⟩ := mem_groupByKey.mp hng
  have hne : sg ≠ [] := by
    rw [hsg]
    exact keyList_filter_ne_nil hn
  cases sg with
  | nil => exact absurd rfl hne
  | cons o rest =>
    have hon : o.comName = n := by
      have hmem : o ∈ g.filter (fun x => decide (x.comName = n)) := by
        rw [← hsg]
        exact List.mem_cons_self o rest
      exact of_decide_eq_true (List.mem_filter.mp hmem).2
    have hps' := hps
    simp only [processSpecies, Option.some.injEq] at hps'
    have hbcom : b.comName = o.comName := by rw [← hps']
    refine ⟨o, rest, ?_, hps⟩
    unfold mergedGroup
    rw [hclat, hclng, hbcom, hon, hsg, hg, List.filter_filter, List.filter_filter,
      List.filter_filter]
    apply List.filter_congr
    intro a _
    by_cases h1 : a.lat = k.1 <;> by_cases h2 : a.lng = k.2 <;>
      by_cases h3 : a.comName = n <;>
        simp [h1, h2, h3, Prod.ext_iff]

lemma strip_processSpecies (photos : String → Option PhotoData) (g : List Observation) :
    (processSpecies photos g).map stripBird = processSpecies noPhotos g := by
  cases g with
  | nil => rfl
  | cons o rest => rfl

lemma strip_processLocation (photos : String → Option PhotoData) (k : ℚ × ℚ)
    (g : List Observation) :
    stripPhotos (processLocation photos k g) = processLocation noPhotos k g := by
  unfold stripPhotos processLocation
  simp only [List.map_filterMap]
  congr 1
  apply List.filterMap_congr
  intro kg _
  exact strip_processSpecies photos kg.2

lemma strip_normalize (photos : String → Option PhotoData) (data : List Observation) :
    (normalize photos data).map stripPhotos = normalize noPhotos data := by
  unfold normalize
  rw [List.map_map]
  apply List.map_congr_left
  intro kg _
  exact strip_processLocation photos kg.1 kg.2

/-- C10: whatever the photo-lookup map holds, the normalizer's output
differs at most in the two photo fields of each record: after erasing
those two fields the outputs for any two lookup maps coincide, so the
cluster list, each cluster's coordinates, each record's species
identity, timestamp and subIds list, and the number of records per
cluster never depend on the lookup outcome. -/
theorem normalize_photo_frame (photos1 photos2 : String → Option PhotoData)
    (data : List Observation) :
    (normalize photos1 data).map stripPhotos = (normalize photos2 data).map stripPhotos := by
  rw [strip_normalize, strip_normalize]

/-- C9: the normalizer is a pure function of its input: running it
again on the same unchanged input yields the identical cluster list
(so in particular the identical cluster set). -/
theorem normalize_deterministic (photos : String → Option PhotoData)
    (d1 d2 : List Observation) (h : d1 = d2) :
    normalize photos d1 = normalize photos d2 := by
  rw [h]

/-- A sample valid observation used by the concrete witnesses. -/
def obsA : Observation :=
  { sciName := "Cyanocitta stelleri", comName := "Stellers Jay",
    speciesCode := "stejay", lat := 37, lng := -122, obsDt := 5,
    obsValid := true, subId := "S100" }

/-- Witness for normalize_deterministic at a concrete input. -/
theorem normalize_deterministic_witness :
    normalize noPhotos [obsA] = normalize noPhotos [obsA] :=
  normalize_deterministic noPhotos [obsA] [obsA] rfl

/-- The record the normalizer builds from the single observation obsA. -/
def birdA : BirdRecord :=
  { sciName := "Cyanocitta stelleri", comName := "Stellers Jay",
    speciesCode := "stejay", lat := 37, lng := -122, obsDt := 5,
    obsValid := true, subId := "S100", subIds := ["S100"],
    thumbnailUrl := none, fullPhotoUrl := none }

/-- The cluster the normalizer builds from the single observation obsA. -/
def clusterA : LocationCluster := { lat := 37, lng := -122, birds := [birdA] }

/-- The property claimed of the normalizer output: every record's
subIds list is nonempty and duplicate-free. -/
def SubIdsInvariant (photos : String → Option PhotoData) (data : List Observation) : Prop :=
  ∀ c ∈ normalize photos data, ∀ b ∈ c.birds, b.subIds ≠ [] ∧ b.subIds.Nodup

/-- C7 counterexample: the normalizer does not deduplicate submission
ids: feeding the same valid observation twice yields one record whose
subIds list holds the same id twice, refuting the claimed no-duplicate
invariant for arbitrary input lists. -/
theorem subIdsInvariant_counterexample : ¬ SubIdsInvariant noPhotos [obsA, obsA] := by
  unfold SubIdsInvariant
  decide

/-- C7 amended: every record of the normalizer's output has a nonempty
subIds list, and the list is duplicate-free whenever the valid
observations of the input carry pairwise distinct submission ids. -/
theorem subIds_nonempty_nodup (photos : String → Option PhotoData)
    (data : List Observation) :
    ∀ c ∈ normalize photos data, ∀ b ∈ c.birds,
      b.subIds ≠ [] ∧
        (((data.filter (fun s => s.obsValid)).map (fun s => s.subId)).Nodup →
          b.subIds.Nodup) := by
  intro c hc b hb
  obtain ⟨o, rest, hmg, hps⟩ := normalize_birds_spec hc hb
  simp only [processSpecies, Option.some.injEq] at hps
  have hsub : b.subIds = (o :: rest).map (fun s => s.subId) := by rw [← hps]
  constructor
  · rw [hsub]
    simp
  · intro hnd
    rw [hsub, ← hmg]
    unfold mergedGroup
    exact List.Nodup.sublist (List.Sublist.map _ (List.filter_sublist _)) hnd

/-- Witness for subIds_nonempty_nodup on the singleton input obsA. -/
theorem subIds_nonempty_nodup_witness :
    birdA.subIds ≠ [] ∧
      ((([obsA].filter (fun s => s.obsValid)).map (fun s => s.subId)).Nodup →
        birdA.subIds.Nodup) :=
  subIds_nonempty_nodup noPhotos [obsA] clusterA (by decide) birdA (by decide)

/-- An older and a newer valid observation of one species at one
location, with distinct submission ids; the older one comes first in
source order. -/
def obsOld : Observation :=
  { sciName := "Patagioenas fasciata", comName := "Band-tailed Pigeon",
    speciesCode := "batpig1", lat := 37, lng := -122, obsDt := 1,
    obsValid := true, subId := "S200" }

/-- The newer companion of obsOld: same location and common name,
larger timestamp, different submission id. -/
def obsNew : Observation :=
  { sciName := "Patagioenas fasciata", comName := "Band-tailed Pigeon",
    speciesCode := "batpig1", lat := 37, lng := -122, obsDt := 2,
    obsValid := true, subId := "S201" }

/-- The property claimed of merged timestamps: every record's
timestamp is at least the timestamp of every observation merged into
it, which is what being the most recent of the group requires. -/
def TimestampMostRecent (photos : String → Option PhotoData) (data : List Observation) : Prop :=
  ∀ c ∈ normalize photos data, ∀ b ∈ c.birds, ∀ o ∈ mergedGroup data c b,
    o.obsDt ≤ b.obsDt

/-- C6 counterexample: the code copies the timestamp of the first
record of each species group, not the most recent one: merging an
older-first pair leaves the record carrying the older timestamp. -/
theorem timestampMostRecent_counterexample :
    ¬ TimestampMostRecent noPhotos [obsOld, obsNew] := by
  unfold TimestampMostRecent
  decide

/-- C6 amended: every record's timestamp is the timestamp of the first
record, in source order, of the group merged into it. -/
theorem obsDt_eq_first_merged (photos : String → Option PhotoData)
    (data : List Observation) :
    ∀ c ∈ normalize photos data, ∀ b ∈ c.birds,
      ∃ o, (mergedGroup data c b).head? = some o ∧ b.obsDt = o.obsDt := by
  intro c hc b hb
  obtain ⟨o, rest, hmg, hps⟩ := normalize_birds_spec hc hb
  refine ⟨o, by rw [hmg, List.head?_cons], ?_⟩
  simp only [processSpecies, Option.some.injEq] at hps
  rw [← hps]

/-- Witness for obsDt_eq_first_merged on the singleton input obsA. -/
theorem obsDt_eq_first_merged_witness :
    ∃ o, (mergedGroup [obsA] clusterA birdA).head? = some o ∧ birdA.obsDt = o.obsDt :=
  obsDt_eq_first_merged noPhotos [obsA] clusterA (by decide) birdA (by decide)

/-- The component state touched by a fetch cycle of BirdMap.jsx: the
published cluster list and the two FetchState variables, which start
null and are assigned together at lines 534-538 only after the cycle
has processed a successful response. -/
structure AppState where
  birdSightings : List LocationCluster
  lastFetchLocation : Option (ℚ × ℚ)
  lastFetchParams : Option QueryParams

/-- The value of the speciesPhotos variable when the records are
built: either an object (possibly the initial empty one) or the
undefined value produced by reading a missing species field. -/
inductive SpeciesPhotosVar where
  | obj (m : String → Option PhotoData)
  | jsUndefined

/-- The resolved outcome of the photo lookup request of BirdMap.jsx
lines 486-504: the request threw or its body failed to parse (caught
by the inner catch, speciesPhotos stays the empty object); the
response status was not ok (the assignment is skipped); or the body
parsed, in which case speciesPhotos becomes its species field, which
is undefined when the parsed body lacks one. -/
inductive PhotoFetchOutcome where
  | requestFailed
  | notOk
  | okWith (species : Option (String → Option PhotoData))

/-- The speciesPhotos variable resulting from each lookup outcome. -/
def speciesPhotosAfter : PhotoFetchOutcome → SpeciesPhotosVar
  | .requestFailed => .obj noPhotos
  | .notOk => .obj noPhotos
  | .okWith (some m) => .obj m
  | .okWith none => .jsUndefined

/-- One fetch attempt of fetchBirdData (BirdMap.jsx lines 438-545)
after the gate has approved, as a state transformer returning the new
component state and whether the cycle completed successfully.  qlat
and qlng are the center coordinates already rounded to four decimals
(lines 440-441).  A none primary outcome is a rejected request or a
non-success status: the throw at line 470 reaches the outer catch, so
no state is assigned.  With a successful primary response the records
are built under the speciesPhotos variable; when that variable is
undefined, indexing it throws for the first record built, so the
cycle reaches the outer catch with no state assigned - which happens
exactly when at least one valid sighting exists, since with none the
record-building lambda never runs and the cycle publishes the empty
cluster list. -/
def fetchAttempt (st : AppState) (qlat qlng : ℚ) (params : QueryParams)
    (primary : Option (List Observation)) (photo : PhotoFetchOutcome) :
    AppState × Bool :=
  match primary with
  | none => (st, false)
  | some data =>
    match speciesPhotosAfter photo with
    | .obj m =>
      ({ birdSightings := normalize m data,
         lastFetchLocation := some (qlat, qlng),
         lastFetchParams := some params }, true)
    | .jsUndefined =>
      if (data.filter (fun s => s.obsValid)).isEmpty then
        ({ birdSightings := [],
           lastFetchLocation := some (qlat, qlng),
           lastFetchParams := some params }, true)
      else (st, false)

/-- The component state touched by a fetch cycle of the plain variant
in part_000: the published cluster list and the lastQueriedPosition
variable. -/
structure BasicAppState where
  birdSightings : List LocationCluster
  lastQueriedPosition : Option (ℚ × ℚ)
deriving DecidableEq

/-- One fetch attempt of fetchBirdData from part_000 lines 292-377: the
same pipeline as the parameterized variant, except that there is no
params state and the lastQueriedPosition variable is assigned before
the request is issued (line 299), hence also kept when the fetch
fails. -/
def fetchAttemptBasic (st : BasicAppState) (qlat qlng : ℚ)
    (primary : Option (List Observation)) (photo : PhotoFetchOutcome) :
    BasicAppState × Bool :=
  match primary with
  | none => ({ st with lastQueriedPosition := some (qlat, qlng) }, false)
  | some data =>
    match speciesPhotosAfter photo with
    | .obj m =>
      ({ birdSightings := normalize m data,
         lastQueriedPosition := some (qlat, qlng) }, true)
    | .jsUndefined =>
      if (data.filter (fun s => s.obsValid)).isEmpty then
        ({ birdSightings := [], lastQueriedPosition := some (qlat, qlng) }, true)
      else ({ st with lastQueriedPosition := some (qlat, qlng) }, false)

/-- C4 counterexample: in the plain variant the last queried center is
recorded before the request, so a primary fetch that fails (outcome
none) still overwrites it: starting from a recorded center (1, 1) and
fetching at (0, 0), the cycle fails yet the recorded center has
changed, refuting the claim that the last queried center is left
unchanged whenever the primary query fails. -/
theorem fetchState_atomicity_counterexample :
    (fetchAttemptBasic ⟨[], some (1, 1)⟩ 0 0 none
        PhotoFetchOutcome.requestFailed).2 = false ∧
      ¬ ((fetchAttemptBasic ⟨[], some (1, 1)⟩ 0 0 none
          PhotoFetchOutcome.requestFailed).1.lastQueriedPosition = some (1, 1)) := by
  refine ⟨rfl, ?_⟩
  decide

/-- C4 amended: in the parameterized variant a failed primary query
leaves the published cluster list and both FetchState variables
untouched and surfaces the failure, any cycle that does not complete
successfully leaves the whole state untouched, and a successful one
overwrites FetchState with the just-used center and params - so there
FetchState is created or overwritten only by a successfully completing
fetch; in the plain variant a failed primary query likewise leaves the
published cluster list untouched and surfaces the failure, but the
lastQueriedPosition variable is recorded before the request and so is
overwritten with the attempted center even on failure. -/
theorem fetchState_atomicity (st : AppState) (stB : BasicAppState)
    (qlat qlng : ℚ) (params : QueryParams) (photo : PhotoFetchOutcome) :
    fetchAttempt st qlat qlng params none photo = (st, false) ∧
      ((fetchAttemptBasic stB qlat qlng none photo).1.birdSightings =
          stB.birdSightings ∧
        (fetchAttemptBasic stB qlat qlng none photo).2 = false ∧
        (fetchAttemptBasic stB qlat qlng none photo).1.lastQueriedPosition =
          some (qlat, qlng)) ∧
      ∀ data : List Observation,
        ((fetchAttempt st qlat qlng params (some data) photo).2 = false →
          (fetchAttempt st qlat qlng params (some data) photo).1 = st) ∧
        ((fetchAttempt st qlat qlng params (some data) photo).2 = true →
          (fetchAttempt st qlat qlng params (some data) photo).1.lastFetchLocation =
              some (qlat, qlng) ∧
            (fetchAttempt st qlat qlng params (some data) photo).1.lastFetchParams =
              some params) := by
  refine ⟨rfl, ⟨rfl, rfl, rfl⟩, ?_⟩
  intro data
  cases photo with
  | requestFailed => exact ⟨fun h => by simp [fetchAttempt, speciesPhotosAfter] at h,
      fun _ => ⟨rfl, rfl⟩⟩
  | notOk => exact ⟨fun h => by simp [fetchAttempt, speciesPhotosAfter] at h,
      fun _ => ⟨rfl, rfl⟩⟩
  | okWith species =>
    cases species with
    | some m => exact ⟨fun h => by simp [fetchAttempt, speciesPhotosAfter] at h,
        fun _ => ⟨rfl, rfl⟩⟩
    | none =>
      by_cases he : (data.filter (fun s => s.obsValid)).isEmpty
      · refine ⟨fun h => ?_, fun _ => ?_⟩
        · simp [fetchAttempt, speciesPhotosAfter, he] at h
        · simp [fetchAttempt, speciesPhotosAfter, he]
      · refine ⟨fun _ => ?_, fun h => ?_⟩
        · simp [fetchAttempt, speciesPhotosAfter, he]
        · simp [fetchAttempt, speciesPhotosAfter, he] at h

/-- Witness for fetchState_atomicity: a cycle whose photo response
parsed without a species field, run on one valid observation, fails
and leaves the initial state untouched. -/
theorem fetchState_atomicity_witness :
    (fetchAttempt ⟨[], none, none⟩ 0 0 ⟨"7", "recent"⟩ (some [obsA])
      (.okWith none)).1 = ⟨[], none, none⟩ :=
  ((fetchState_atomicity ⟨[], none, none⟩ ⟨[], none⟩ 0 0 ⟨"7", "recent"⟩
    (.okWith none)).2.2 [obsA]).1 (by decide)

/-- C5 counterexample: the claim asks every photo-lookup failure -
including a malformed response - to leave the cycle completing as
Success.  A response that parses but lacks the species field makes
the speciesPhotos variable undefined; with one valid observation the
record builder then throws reading it, the outer catch runs, and the
cycle does not complete as Success. -/
theorem enrich_absorb_counterexample :
    ¬ ((fetchAttempt ⟨[], none, none⟩ 0 0 ⟨"7", "recent"⟩ (some [obsA])
        (.okWith none)).2 = true) := by
  decide

/-- C5 amended: when the photo lookup fails by a rejected request, an
unparseable body, or a non-success status, the cycle completes as
Success, publishes the clusters built with the empty photo map, and
every published record has both photo fields absent; only a parseable
success response lacking the species map escapes this absorption. -/
theorem enrich_failure_absorbed (st : AppState) (qlat qlng : ℚ)
    (params : QueryParams) (data : List Observation)
    (photo : PhotoFetchOutcome)
    (h : photo = PhotoFetchOutcome.requestFailed ∨ photo = PhotoFetchOutcome.notOk) :
    fetchAttempt st qlat qlng params (some data) photo =
      ({ birdSightings := normalize noPhotos data,
         lastFetchLocation := some (qlat, qlng),
         lastFetchParams := some params }, true) ∧
      (normalize noPhotos data).map stripPhotos = normalize noPhotos data := by
  constructor
  · rcases h with rfl | rfl <;> rfl
  · exact strip_normalize noPhotos data

/-- Witness for enrich_failure_absorbed: a failed lookup request over
one valid observation still publishes and succeeds, with photo fields
absent. -/
theorem enrich_failure_absorbed_witness :
    fetchAttempt ⟨[], none, none⟩ 0 0 ⟨"7", "recent"⟩ (some [obsA])
        PhotoFetchOutcome.requestFailed =
      ({ birdSightings := normalize noPhotos [obsA],
         lastFetchLocation := some (0, 0),
         lastFetchParams := some ⟨"7", "recent"⟩ }, true) ∧
      (normalize noPhotos [obsA]).map stripPhotos = normalize noPhotos [obsA] :=
  enrich_failure_absorbed ⟨[], none, none⟩ 0 0 ⟨"7", "recent"⟩ [obsA]
    PhotoFetchOutcome.requestFailed (Or.inl rfl)

/-- C2: two valid observations at the same exact location with the
same common name and distinct submission ids, followed by one invalid
observation, normalize to exactly one cluster holding one record
whose subIds lists both ids in source order, and the invalid
observation contributes nothing: the output equals that of the input
without it. -/
theorem normalize_merge_two (photos : String → Option PhotoData)
    (o1 o2 bad : Observation)
    (h1 : o1.obsValid = true) (h2 : o2.obsValid = true) (hbv : bad.obsValid = false)
    (hlat : o2.lat = o1.lat) (hlng : o2.lng = o1.lng) (hcn : o2.comName = o1.comName)
    (_hsub : o1.subId ≠ o2.subId) :
    (∃ b, normalize photos [o1, o2, bad] = [⟨o1.lat, o1.lng, [b]⟩] ∧
      b.subIds = [o1.subId, o2.subId]) ∧
      normalize photos [o1, o2, bad] = normalize photos [o1, o2] := by
  have hfilter : List.filter (fun s => s.obsValid) [o1, o2, bad] = [o1, o2] := by
    simp [List.filter_cons, h1, h2, hbv]
  have hfilter2 : List.filter (fun s => s.obsValid) [o1, o2] = [o1, o2] := by
    simp [List.filter_cons, h1, h2]
  have hsame : normalize photos [o1, o2, bad] = normalize photos [o1, o2] := by
    unfold normalize
    rw [hfilter, hfilter2]
  refine ⟨?_, hsame⟩
  refine ⟨{ sciName := o1.sciName
            comName := o1.comName
            speciesCode := o1.speciesCode
            lat := o1.lat
            lng := o1.lng
            obsDt := o1.obsDt
            obsValid := o1.obsValid
            subId := o1.subId
            subIds := [o1.subId, o2.subId]
            thumbnailUrl :=
              (photos (o1.sciName ++ "_" ++ o1.comName)).map (fun p => p.thumbnailUrl)
            fullPhotoUrl :=
              (photos (o1.sciName ++ "_" ++ o1.comName)).map (fun p => p.imageUrl) },
    ?_, rfl⟩
  unfold normalize
  rw [hfilter]
  unfold groupByKey keyList
  simp only [List.foldl_cons, List.foldl_nil]
  unfold insertKey
  simp only [List.not_mem_nil, if_false, List.nil_append, hlat, hlng, List.mem_singleton,
    Prod.mk.injEq, and_self, if_true, List.map_cons, List.map_nil]
  simp only [List.filter_cons, List.filter_nil, hlat, hlng, decide_True, if_true]
  simp only [and_self, decide_True, if_true]
  unfold processLocation groupByKey keyList
  simp only [List.foldl_cons, List.foldl_nil]
  unfold insertKey
  simp only [List.not_mem_nil, if_false, List.nil_append, hcn, List.mem_singleton, if_true,
    List.map_cons, List.map_nil]
  simp only [List.filter_cons, List.filter_nil, hcn, decide_True, if_true]
  simp [List.filterMap_cons, processSpecies]

/-- An invalid observation at the same location as obsOld. -/
def obsBad : Observation :=
  { sciName := "Patagioenas fasciata", comName := "Band-tailed Pigeon",
    speciesCode := "batpig1", lat := 37, lng := -122, obsDt := 3,
    obsValid := false, subId := "S300" }

/-- Witness for normalize_merge_two on the concrete triple obsOld,
obsNew, obsBad. -/
theorem normalize_merge_two_witness :
    (∃ b, normalize noPhotos [obsOld, obsNew, obsBad] =
        [⟨obsOld.lat, obsOld.lng, [b]⟩] ∧
      b.subIds = [obsOld.subId, obsNew.subId]) ∧
      normalize noPhotos [obsOld, obsNew, obsBad] =
        normalize noPhotos [obsOld, obsNew] :=
  normalize_merge_two noPhotos obsOld obsNew obsBad rfl rfl rfl rfl rfl rfl (by decide)

end RareBirds
